import Mathlib

/-
Verification of the extract_census scripts: a shallow embedding of the
pipeline code (geocoding, reverse geocoding, census-parameter extraction,
boundary merge, buffer and clip) together with theorems settling the
stated properties.  External library calls (HTTP, shapely, geopandas,
pandas, json) are represented by explicit inputs or by definitions
modelled from the specification, as noted on each definition.
-/

set_option autoImplicit false

namespace ExtractCensus

/-- A Python/JSON value as it flows through these scripts: Python `None`,
strings, numbers, lists and string-keyed dicts (dicts kept as association
lists in insertion order). -/
inductive PyVal where
  | null : PyVal
  | str : String → PyVal
  | num : ℚ → PyVal
  | list : List PyVal → PyVal
  | dict : List (String × PyVal) → PyVal

/-- Python `d.get(k, dflt)` on a dict represented as an association list:
the first binding of `k` wins, otherwise the default is returned. -/
def pyDictGet (d : List (String × PyVal)) (k : String) (dflt : PyVal) : PyVal :=
  match d.find? (fun kv => kv.1 == k) with
  | some kv => kv.2
  | Option.none => dflt

/-- Python `v.get(k, dflt)` on an arbitrary value: succeeds when `v` is a
dict, raises `AttributeError` otherwise (in particular when `v` is `None`). -/
def pyGet (v : PyVal) (k : String) (dflt : PyVal) : Except String PyVal :=
  match v with
  | .dict d => .ok (pyDictGet d k dflt)
  | _ => .error "AttributeError"

/-- Python subscription `d[k]` on a dict: raises `KeyError` when the key is
absent. -/
def pySubscript (d : List (String × PyVal)) (k : String) : Except String PyVal :=
  match d.find? (fun kv => kv.1 == k) with
  | some kv => .ok kv.2
  | Option.none => .error "KeyError"

/-- Python truthiness of a value: `None` is falsy, a string is truthy iff
non-empty, a number iff non-zero, a list or dict iff non-empty. -/
def pyTruthy : PyVal → Bool
  | .null => false
  | .str s => s ≠ ""
  | .num q => q ≠ 0
  | .list l => !l.isEmpty
  | .dict d => !d.isEmpty

/-- Python `str(v)` as used inside the f-string of `get_census_parameters`.
Only the `None` and string cases are ever exercised by the theorems below;
container renderings are abbreviated since no claim depends on them. -/
def pyToString : PyVal → String
  | .null => "None"
  | .str s => s
  | .num q => toString q
  | .list _ => "<list>"
  | .dict _ => "<dict>"

/-- The reverse-geocoding call of `GeocodingMap.get_location_info`
(process_geography.py lines 22-33): either the provider times out
(`geopy.exc.GeocoderTimedOut`) or it returns a response whose `.raw` is a
dict. -/
inductive RevResponse where
  | timeout : RevResponse
  | success : List (String × PyVal) → RevResponse

/-- `GeocodingMap.get_location_info` (process_geography.py lines 22-33 and
process_geography_streamlit.py lines 24-35): reads `location.raw['address']`
(a `KeyError` from a missing key propagates, since only `GeocoderTimedOut`
is caught), then `address.get('county', '')` and `address.get('state', '')`,
returning `(None, None)` only in the timeout handler.  An uncaught Python
exception is modelled as `Except.error` with the exception name. -/
def get_location_info (resp : RevResponse) : Except String (PyVal × PyVal) :=
  match resp with
  | .timeout => .ok (.null, .null)
  | .success raw =>
    match pySubscript raw "address" with
    | .error e => .error e
    | .ok address =>
      match pyGet address "county" (.str "") with
      | .error e => .error e
      | .ok county =>
        match pyGet address "state" (.str "") with
        | .error e => .error e
        | .ok state => .ok (county, state)

/-- One entry of the `features` array in the Mapbox geocoding response:
the code only reads its `center` pair (process_geography.py line 44). -/
structure MapboxFeature where
  center : ℚ × ℚ

/-- The dict `{'longitude': ..., 'latitude': ...}` returned by
`geocode_address` on success. -/
structure GeoCoord where
  longitude : ℚ
  latitude : ℚ

/-- `GeocodingMap.geocode_address` (process_geography.py lines 35-53):
given the HTTP status code and the parsed `features` array, returns the
Python return value together with the list of error messages printed or
displayed.  Status 200 with a non-empty feature list yields the first
feature's center as `(longitude, latitude)`; status 200 with an empty list
yields `None` silently; any other status prints `Error: <code>` and yields
`None`. -/
def geocode_address (status_code : ℕ) (features : List MapboxFeature) :
    Option GeoCoord × List String :=
  if status_code = 200 then
    match features with
    | [] => (Option.none, [])
    | f :: _ => (some ⟨f.center.1, f.center.2⟩, [])
  else
    (Option.none, ["Error: " ++ toString status_code])

/-- A point of the plane, used to model geometries as finite point sets. -/
abbrev Pt := ℤ × ℤ

/-- A boundary feature: its attribute columns and its geometry, modelled as
a finite set of points so that intersection and emptiness are decidable. -/
structure Feature where
  attrs : List (String × String)
  geom : Finset Pt
deriving DecidableEq

/-- Modelled from the spec: `gpd.clip` is an external geopandas call
(process_geography.py line 80, streamlit_combined.py line 84); the spec
describes it as computing "the geometric intersection ('clip') of every
boundary feature with the buffer, discarding features with empty
intersection", attribute values retained. -/
def gpd_clip (features : List Feature) (buffer : Finset Pt) : List Feature :=
  (features.map (fun f => { attrs := f.attrs, geom := f.geom ∩ buffer })).filter
    (fun f => decide (f.geom ≠ ∅))

/-- The buffer distance in meters passed to `.buffer(...)` by
`GeocodingMap.create_buffer_and_clip` (process_geography.py line 74 and
process_geography_streamlit.py line 69): the literal `4828.03`, regardless
of the `buffer_miles` parameter. -/
def buffer_meters_geography (buffer_miles : ℚ) : ℚ := 4828.03

/-- The buffer distance in meters passed to `.buffer(...)` by
`CombinedCensusMap.create_buffer_and_clip` (streamlit_combined.py line 78):
the literal `8046.72`, regardless of the `buffer_miles` parameter. -/
def buffer_meters_combined (buffer_miles : ℚ) : ℚ := 8046.72

/-- `GeocodingMap.create_buffer_and_clip` (process_geography.py lines
63-82): builds the buffer disc around `(latitude, longitude)` at the
hardcoded distance and clips the block groups with it.  The external
projection-and-buffer construction (`to_crs`/`.buffer`) is abstracted as
`bufferOf latitude longitude meters`. -/
def create_buffer_and_clip (bufferOf : ℚ → ℚ → ℚ → Finset Pt)
    (latitude longitude : ℚ) (block_group_data : List Feature)
    (buffer_miles : ℚ) : List Feature × Finset Pt :=
  let buffer := bufferOf latitude longitude (buffer_meters_geography buffer_miles)
  (gpd_clip block_group_data buffer, buffer)

/-- `CombinedCensusMap.create_buffer_and_clip` (streamlit_combined.py lines
64-86): same shape as the process_geography version but with the 5-mile
constant. -/
def create_buffer_and_clip_combined (bufferOf : ℚ → ℚ → ℚ → Finset Pt)
    (latitude longitude : ℚ) (data : List Feature)
    (buffer_miles : ℚ) : List Feature × Finset Pt :=
  let buffer := bufferOf latitude longitude (buffer_meters_combined buffer_miles)
  (gpd_clip data buffer, buffer)

/-- A row of the boundary GeoDataFrame: its `GEOID` key and its other
columns. -/
structure BgRow where
  geoid : String
  attrs : List (String × String)
deriving DecidableEq

/-- A row of the census statistics DataFrame: its `GEOID` key and the
variable columns. -/
structure StatRow where
  geoid : String
  vals : List (String × ℚ)
deriving DecidableEq

/-- Modelled from the spec: `block_group_data.merge(census_data, on='GEOID',
how='left')` (streamlit_combined.py line 57) is an external pandas call; a
left join keyed on the shared `GEOID` column, in which every left row with
no matching right row is kept once with null statistic values, and a left
row with matching right rows is paired with each of them. -/
def merge_left (bg : List BgRow) (census : List StatRow) :
    List (BgRow × Option (List (String × ℚ))) :=
  bg.flatMap (fun b =>
    let ms := census.filter (fun c => c.geoid == b.geoid)
    if ms.isEmpty then [(b, Option.none)]
    else ms.map (fun c => (b, some c.vals)))

/-- The merge stage of `CombinedCensusMap.process_request`
(streamlit_combined.py lines 48-62): check that both frames carry a `GEOID`
column (emitting an error and returning `None` otherwise), then left-merge
and return the result.  The outcome pairs the returned value with the list
of `st.error` messages shown to the user. -/
def process_request_merge (bgCols : List String) (bg : List BgRow)
    (censusCols : List String) (census : List StatRow) :
    Option (List (BgRow × Option (List (String × ℚ)))) × List String :=
  if "GEOID" ∉ bgCols then
    (Option.none, ["Error: 'GEOID' column not found in block_group_data"])
  else if "GEOID" ∉ censusCols then
    (Option.none, ["Error: 'GEOID' column not found in census_data"])
  else
    (some (merge_left bg census), [])

/-- What an orchestrator does right after the reverse-geocoding step:
either it goes on to fetch boundary data with the county and state it got,
or it shows a message and halts, or an uncaught exception propagates. -/
inductive AddressOutcome where
  | fetchesBoundaries : PyVal → PyVal → AddressOutcome
  | halted : String → AddressOutcome
  | raised : String → AddressOutcome

/-- The county/state gate of `GeocodingMap.process_address`
(process_geography.py lines 131-147): `if county and state:` proceeds to
`get_block_group_data`, else prints "Couldn't retrieve county and state
information." and stops; an exception out of `get_location_info`
propagates. -/
def process_address_loc_step (locResult : Except String (PyVal × PyVal)) :
    AddressOutcome :=
  match locResult with
  | .error e => .raised e
  | .ok (county, state) =>
    if pyTruthy county && pyTruthy state then .fetchesBoundaries county state
    else .halted "Couldn't retrieve county and state information."

/-- The county/state gate of `CombinedCensusMap.process_request`
(streamlit_combined.py lines 27-30): `if not county or not state:` shows
"Failed to get county and state information." and returns `None`, else the
pipeline proceeds to the boundary fetch. -/
def process_request_loc_step (locResult : Except String (PyVal × PyVal)) :
    AddressOutcome :=
  match locResult with
  | .error e => .raised e
  | .ok (county, state) =>
    if !(pyTruthy county) || !(pyTruthy state) then
      .halted "Failed to get county and state information."
    else .fetchesBoundaries county state

/-- Index of the first occurrence of a character in a list, if any. -/
def firstIdx (c : Char) : List Char → Option ℕ
  | [] => Option.none
  | a :: as => if a = c then some 0 else (firstIdx c as).map (· + 1)

/-- Index of the last occurrence of a character in a list, if any. -/
def lastIdx (c : Char) (s : List Char) : Option ℕ :=
  (firstIdx c s.reverse).map (fun i => s.length - 1 - i)

/-- Python `s.find(c)`: index of the first occurrence, `-1` when absent. -/
def pyFind (s : List Char) (c : Char) : ℤ :=
  match firstIdx c s with
  | some i => (i : ℤ)
  | Option.none => -1

/-- Python `s.rfind(c)`: index of the last occurrence, `-1` when absent. -/
def pyRFind (s : List Char) (c : Char) : ℤ :=
  match lastIdx c s with
  | some i => (i : ℤ)
  | Option.none => -1

/-- Clamping of a Python slice bound for a sequence of length `n`:
negative indices count from the end, then both ends are clamped into
`[0, n]`. -/
def pyClamp (x : ℤ) (n : ℕ) : ℕ :=
  (if x < 0 then max (x + n) 0 else min x n).toNat

/-- Python slicing `s[start:stop]` with step 1: both bounds are clamped by
`pyClamp`, and the slice is the clamped-start to clamped-stop window (empty
when the clamped start is not below the clamped stop). -/
def pySlice (s : List Char) (start stop : ℤ) : List Char :=
  (s.drop (pyClamp start s.length)).take (pyClamp stop s.length - pyClamp start s.length)

/-- The span extraction of `comprehensive_census_agent`
(train_of_thought_comprehensive_agent_with_latlon.py lines 62-64):
`content[json_start:json_end]` where `json_start` is the index of the first
opening brace per `find` and `json_end` is one past the index of the last
closing brace per `rfind`, with Python find/rfind/slice semantics. -/
def extract_json_str (content : List Char) : List Char :=
  pySlice content (pyFind content '{') (pyRFind content '}' + 1)

/-- Result of the agent's parsing step: either the parsed JSON object, or
the error dict `{"error": "Failed to parse response", "raw_response":
content}`. -/
inductive AgentResult where
  | ok : PyVal → AgentResult
  | failed : List Char → AgentResult

/-- The parse step of `CensusDataFetcher.comprehensive_census_agent`
(train_of_thought_comprehensive_agent_with_latlon.py lines 59-69): extract
the first-brace-to-last-brace span, run `json.loads` on it (the external
parser is the `loads` argument, returning `Option.none` on
`json.JSONDecodeError`), and on failure return the error result carrying
the raw response text. -/
def comprehensive_agent_parse (loads : List Char → Option PyVal)
    (content : List Char) : AgentResult :=
  match loads (extract_json_str content) with
  | some j => .ok j
  | Option.none => .failed content

/-- `CensusDataFetcher.get_census_parameters`
(train_of_thought_comprehensive_agent_with_latlon.py lines 71-86), applied
to the dict produced by the agent: `.get` reads with `None` defaults except
`geography`, which defaults to the empty dict only when the key is ABSENT —
a stored `None` is returned as is, and `geography.get('for')` then raises
`AttributeError`.  The `params` value is the pair of the `for` entry and
the f-string `"state:... county:..."`. -/
def get_census_parameters (result : List (String × PyVal)) :
    Except String (PyVal × PyVal × PyVal × (PyVal × String)) :=
  let dataset := pyDictGet result "dataset" .null
  let varList := pyDictGet result "variables" .null
  let year := pyDictGet result "year" .null
  let geography := pyDictGet result "geography" (.dict [])
  let state_fips := pyDictGet result "state_fips" .null
  let county_fips := pyDictGet result "county_fips" .null
  match pyGet geography "for" .null with
  | .error e => .error e
  | .ok forVal =>
      .ok (dataset, varList, year,
        (forVal, "state:" ++ pyToString state_fips ++ " county:" ++ pyToString county_fips))

/-- `CensusDataFetcher.process_request`
(train_of_thought_comprehensive_agent_with_latlon.py lines 101-118), given
the interpreter's result dict and the external fetch call (`fetch` models
`fetch_census_data`, whose internal `try/except` returns `Option.none` on
any exception): the parameters are passed straight to the fetch — there is
no check of the interpreter's output before invoking it — and only the
fetch result is checked afterwards.  An exception out of
`get_census_parameters` propagates uncaught. -/
def process_request_totc (result : List (String × PyVal))
    (fetch : PyVal → PyVal → PyVal → (PyVal × String) → Option (List StatRow)) :
    Except String (Option (List StatRow)) :=
  match get_census_parameters result with
  | .error e => .error e
  | .ok (dataset, varList, year, params) => .ok (fetch dataset varList year params)

/-- Claim C1, counterexample: at the actual call sites the buffer distance
applied is the hardcoded literal, which differs from `buffer_miles * 1609.34`
even for the callers' own radii (3 * 1609.34 = 4828.02 ≠ 4828.03 and
5 * 1609.34 = 8046.70 ≠ 8046.72), and the `buffer_miles` argument is
ignored altogether (10 miles still yields the 3-mile constant). -/
theorem buffer_distance_counterexample :
    buffer_meters_geography 3 ≠ 3 * 1609.34 ∧
    buffer_meters_combined 5 ≠ 5 * 1609.34 ∧
    buffer_meters_geography 10 ≠ 10 * 1609.34 := by
  refine ⟨?_, ?_, ?_⟩ <;>
    norm_num [buffer_meters_geography, buffer_meters_combined]

/-- Claim C1, amended: the buffer distance passed to `.buffer` is a fixed
constant independent of the `buffer_miles` parameter — 4828.03 m in
`GeocodingMap.create_buffer_and_clip` and 8046.72 m (which is exactly
5 * 1609.344) in `CombinedCensusMap.create_buffer_and_clip`. -/
theorem buffer_distance_hardcoded :
    ∀ buffer_miles : ℚ,
      buffer_meters_geography buffer_miles = 4828.03 ∧
      buffer_meters_combined buffer_miles = 8046.72 ∧
      buffer_meters_combined buffer_miles = 5 * 1609.344 := by
  intro m
  refine ⟨rfl, rfl, ?_⟩
  norm_num [buffer_meters_combined]

/-- Claim C5: the code, evaluated at its failing input.  When the
interpreter follows its own prompt and answers with every field null —
in particular `geography: null` — `get_census_parameters` evaluates
`None.get('for')` and raises `AttributeError`; the exception escapes
`process_request` as well (for any behaviour of the census fetch), instead
of a clear failure result. -/
theorem get_census_parameters_null_geography_raises :
    get_census_parameters
      [("state_fips", .null), ("county_fips", .null), ("variables", .null),
       ("geography", .null), ("year", .null), ("dataset", .null)] =
      .error "AttributeError" ∧
    ∀ fetch,
      process_request_totc
        [("state_fips", .null), ("county_fips", .null), ("variables", .null),
         ("geography", .null), ("year", .null), ("dataset", .null)] fetch =
        .error "AttributeError" := by
  exact ⟨rfl, fun _ => rfl⟩

/-- Claim C6, counterexample: a response whose `address` dict lacks the
`county` and `state` keys makes `get_location_info` return the pair of
empty strings, not `(None, None)`; and a response lacking the `address`
structure entirely makes it raise `KeyError` rather than return at all. -/
theorem get_location_info_counterexample :
    get_location_info (.success [("address", .dict [])]) = .ok (.str "", .str "") ∧
    PyVal.str "" ≠ PyVal.null ∧
    get_location_info (.success [("road", .str "Main St")]) = .error "KeyError" := by
  exact ⟨rfl, fun h => PyVal.noConfusion h, rfl⟩

/-- Claim C6, amended: when the nested `address` dict lacks the `county` or
`state` keys, `get_location_info` returns the empty string `''` for the
missing field (via the `.get` defaults) without raising; `(None, None)` is
returned only by the `GeocoderTimedOut` handler; and a response lacking the
`address` structure entirely raises `KeyError` (only the timeout is
caught). -/
theorem get_location_info_amended :
    (∀ (raw : List (String × PyVal)) (k : String) (address : List (String × PyVal)),
      raw.find? (fun kv => kv.1 == "address") = some (k, .dict address) →
      address.find? (fun kv => kv.1 == "county") = Option.none →
      address.find? (fun kv => kv.1 == "state") = Option.none →
      get_location_info (.success raw) = .ok (.str "", .str "")) ∧
    (∀ raw : List (String × PyVal),
      raw.find? (fun kv => kv.1 == "address") = Option.none →
      get_location_info (.success raw) = .error "KeyError") ∧
    get_location_info .timeout = .ok (.null, .null) := by
  refine ⟨?_, ?_, rfl⟩
  · intro raw k address h1 h2 h3
    simp only [get_location_info, pySubscript, pyGet, pyDictGet, h1, h2, h3]
  · intro raw h1
    simp only [get_location_info, pySubscript, h1]

/-- Claim C6, witness for the amended theorem at a concrete response whose
address dict carries only a road name. -/
theorem get_location_info_amended_witness :
    get_location_info (.success [("address", .dict [("road", .str "Main St")])]) =
      .ok (.str "", .str "") :=
  get_location_info_amended.1 [("address", .dict [("road", .str "Main St")])]
    "address" [("road", .str "Main St")] rfl rfl rfl

/-- Claim C7: the three outcomes of `geocode_address`, taking the outcome
to be the returned value together with the error messages shown — success
returns the first candidate's coordinates with no message, an empty
candidate list returns `None` with no message, a non-success status
returns `None` with the message `Error: <code>`; the three outcomes are
pairwise distinct. -/
theorem geocode_address_outcomes :
    (∀ (f : MapboxFeature) (rest : List MapboxFeature),
      geocode_address 200 (f :: rest) = (some ⟨f.center.1, f.center.2⟩, [])) ∧
    geocode_address 200 [] = (Option.none, []) ∧
    (∀ (status_code : ℕ) (features : List MapboxFeature), status_code ≠ 200 →
      geocode_address status_code features =
        (Option.none, ["Error: " ++ toString status_code])) ∧
    (∀ (status_code : ℕ) (features : List MapboxFeature)
        (f : MapboxFeature) (rest : List MapboxFeature), status_code ≠ 200 →
      geocode_address status_code features ≠ geocode_address 200 [] ∧
      geocode_address status_code features ≠ geocode_address 200 (f :: rest) ∧
      geocode_address 200 [] ≠ geocode_address 200 (f :: rest)) := by
  refine ⟨fun f rest => by simp [geocode_address], by simp [geocode_address],
    fun status features h => by simp [geocode_address, h], ?_⟩
  intro status features f rest h
  refine ⟨?_, ?_, ?_⟩ <;> simp [geocode_address, h]

/-- Claim C7, witness: a 404 response carries the status code in its error
message and returns `None`. -/
theorem geocode_address_outcomes_witness :
    geocode_address 404 [] = (Option.none, ["Error: " ++ toString 404]) :=
  geocode_address_outcomes.2.2.1 404 [] (by decide)

/-- Claim C9: on a success response whose first feature's center pair is
`(c0, c1)`, `geocode_address` returns the coordinate record with longitude
`c0` (center index 0) and latitude `c1` (center index 1). -/
theorem geocode_address_stub_center :
    ∀ (c0 c1 : ℚ) (rest : List MapboxFeature),
      (geocode_address 200 (⟨(c0, c1)⟩ :: rest)).1 = some ⟨c0, c1⟩ ∧
      (GeoCoord.mk c0 c1).longitude = c0 ∧ (GeoCoord.mk c0 c1).latitude = c1 := by
  intro c0 c1 rest
  exact ⟨by simp [geocode_address], rfl, rfl⟩

/-- Claim C10: a successful reverse lookup that yields an empty string for
county or state is treated by both orchestrators exactly like the
`(None, None)` failure case — the could-not-retrieve message is emitted
and the pipeline halts before fetching boundary data — because the gates
test Python truthiness, under which `''` and `None` coincide. -/
theorem empty_county_or_state_halts :
    ∀ county state : PyVal, (county = .str "" ∨ state = .str "") →
      process_address_loc_step (.ok (county, state)) =
        .halted "Couldn't retrieve county and state information." ∧
      process_address_loc_step (.ok (county, state)) =
        process_address_loc_step (.ok (.null, .null)) ∧
      process_request_loc_step (.ok (county, state)) =
        .halted "Failed to get county and state information." ∧
      process_request_loc_step (.ok (county, state)) =
        process_request_loc_step (.ok (.null, .null)) := by
  intro county state h
  rcases h with rfl | rfl
  · refine ⟨?_, ?_, ?_, ?_⟩ <;>
      simp [process_address_loc_step, process_request_loc_step, pyTruthy]
  · refine ⟨?_, ?_, ?_, ?_⟩ <;>
      simp [process_address_loc_step, process_request_loc_step, pyTruthy]

/-- Claim C10, witness: an empty county next to a perfectly good state
still halts both orchestrators. -/
theorem empty_county_or_state_halts_witness :
    process_address_loc_step (.ok (.str "", .str "Texas")) =
      .halted "Couldn't retrieve county and state information." :=
  (empty_county_or_state_halts (.str "") (.str "Texas") (Or.inl rfl)).1

/-- Membership characterisation of the clip: a feature is in the output iff
it is the attribute-preserving, geometry-intersected image of an input
feature whose intersection with the buffer is non-empty. -/
lemma mem_gpd_clip (fs : List Feature) (b : Finset Pt) (g : Feature) :
    g ∈ gpd_clip fs b ↔
      ∃ f ∈ fs, f.geom ∩ b ≠ ∅ ∧ g.attrs = f.attrs ∧ g.geom = f.geom ∩ b := by
  simp only [gpd_clip, List.mem_filter, List.mem_map, decide_eq_true_eq]
  constructor
  · rintro ⟨⟨f, hf, rfl⟩, hne⟩
    exact ⟨f, hf, hne, rfl, rfl⟩
  · rintro ⟨f, hf, hne, ha, hg⟩
    obtain ⟨ga, gg⟩ := g
    cases ha
    cases hg
    exact ⟨⟨f, hf, rfl⟩, hne⟩

/-- Claim C2: for every boundary feature collection and every buffer, the
clipped output of both `create_buffer_and_clip` versions contains exactly
the features whose original geometry meets the buffer, each retaining its
original attribute values with geometry equal to the (non-empty)
intersection with the buffer; no output feature has empty geometry. -/
theorem create_buffer_and_clip_correct :
    ∀ (bufferOf : ℚ → ℚ → ℚ → Finset Pt) (latitude longitude : ℚ)
      (data : List Feature) (buffer_miles : ℚ),
      (∀ g, g ∈ (create_buffer_and_clip bufferOf latitude longitude data buffer_miles).1 ↔
        ∃ f ∈ data,
          f.geom ∩ (create_buffer_and_clip bufferOf latitude longitude data buffer_miles).2 ≠ ∅ ∧
          g.attrs = f.attrs ∧
          g.geom = f.geom ∩ (create_buffer_and_clip bufferOf latitude longitude data buffer_miles).2) ∧
      (∀ g ∈ (create_buffer_and_clip bufferOf latitude longitude data buffer_miles).1,
        g.geom ≠ ∅) ∧
      (∀ g, g ∈ (create_buffer_and_clip_combined bufferOf latitude longitude data buffer_miles).1 ↔
        ∃ f ∈ data,
          f.geom ∩ (create_buffer_and_clip_combined bufferOf latitude longitude data buffer_miles).2 ≠ ∅ ∧
          g.attrs = f.attrs ∧
          g.geom = f.geom ∩ (create_buffer_and_clip_combined bufferOf latitude longitude data buffer_miles).2) ∧
      (∀ g ∈ (create_buffer_and_clip_combined bufferOf latitude longitude data buffer_miles).1,
        g.geom ≠ ∅) := by
  intro bufferOf latitude longitude data buffer_miles
  refine ⟨fun g => mem_gpd_clip data _ g, ?_, fun g => mem_gpd_clip data _ g, ?_⟩ <;>
  · intro g hg
    obtain ⟨f, _, hne, _, hgeom⟩ := (mem_gpd_clip data _ g).mp hg
    rw [hgeom]
    exact hne

/-- Claim C2, witness: a feature reaching into the buffer survives the clip
of `create_buffer_and_clip` with its attributes and with its geometry cut
down to the part inside the buffer. -/
theorem create_buffer_and_clip_correct_witness :
    (⟨[("GEOID", "a")], {((0 : ℤ), (0 : ℤ))}⟩ : Feature) ∈
      (create_buffer_and_clip (fun _ _ _ => {((0 : ℤ), (0 : ℤ))}) 0 0
        [⟨[("GEOID", "a")], {((0 : ℤ), (0 : ℤ)), ((5 : ℤ), (5 : ℤ))}⟩] 3).1 :=
  ((create_buffer_and_clip_correct (fun _ _ _ => {((0 : ℤ), (0 : ℤ))}) 0 0
      [⟨[("GEOID", "a")], {((0 : ℤ), (0 : ℤ)), ((5 : ℤ), (5 : ℤ))}⟩] 3).1 _).mpr
    ⟨⟨[("GEOID", "a")], {((0 : ℤ), (0 : ℤ)), ((5 : ℤ), (5 : ℤ))}⟩,
      List.mem_singleton.mpr rfl, by decide, rfl, by decide⟩

/-- Claim C3: the merge is a left join keyed on the shared `GEOID` column —
every boundary row appears in the output, a boundary row with no matching
statistic identifier appears paired with null statistic values, and such a
row is never paired with actual values. -/
theorem merge_left_is_left_join :
    ∀ (bg : List BgRow) (census : List StatRow) (b : BgRow), b ∈ bg →
      (∃ ov, (b, ov) ∈ merge_left bg census) ∧
      (census.filter (fun c => c.geoid == b.geoid) = [] →
        ((b, (Option.none : Option (List (String × ℚ)))) ∈ merge_left bg census ∧
         ∀ v, (b, some v) ∉ merge_left bg census)) := by
  intro bg census b hb
  constructor
  · cases hf : census.filter (fun c => c.geoid == b.geoid) with
    | nil =>
      exact ⟨Option.none, List.mem_flatMap.mpr ⟨b, hb, by simp [hf]⟩⟩
    | cons c cs =>
      refine ⟨some c.vals, List.mem_flatMap.mpr ⟨b, hb, ?_⟩⟩
      simp only [hf, List.isEmpty_cons, List.map_cons]
      exact List.mem_cons_self _ _
  · intro hfilter
    constructor
    · exact List.mem_flatMap.mpr ⟨b, hb, by simp [hfilter]⟩
    · intro v hv
      obtain ⟨b', hb', hmem⟩ := List.mem_flatMap.mp hv
      cases hf' : census.filter (fun c => c.geoid == b'.geoid) with
      | nil =>
        simp [hf'] at hmem
      | cons c cs =>
        rw [hf'] at hmem
        simp only [List.isEmpty_cons, Bool.false_eq_true, if_false] at hmem
        obtain ⟨c', hc', heq⟩ := List.mem_map.mp hmem
        injection heq with h1 h2
        subst h1
        rw [hfilter] at hf'
        exact List.noConfusion hf'

/-- Claim C3, witness: a boundary row whose `GEOID` matches no statistic
row survives the merge with null statistic values. -/
theorem merge_left_is_left_join_witness :
    ((⟨"A", [("name", "tract a")]⟩ : BgRow), (Option.none : Option (List (String × ℚ)))) ∈
      merge_left [⟨"A", [("name", "tract a")]⟩] [⟨"B", [("B01003_001E", 42)]⟩] :=
  ((merge_left_is_left_join [⟨"A", [("name", "tract a")]⟩] [⟨"B", [("B01003_001E", 42)]⟩]
      ⟨"A", [("name", "tract a")]⟩ (List.mem_singleton.mpr rfl)).2 rfl).1

/-- Claim C8, counterexample: with both `GEOID` columns present but no
identifier in common, the merge stage of `process_request` returns the
left-joined data — the boundary row paired with null statistics — and
shows no error message at all: the pipeline silently proceeds to render. -/
theorem process_request_merge_counterexample :
    process_request_merge ["GEOID", "geometry"] [⟨"A", []⟩]
        ["GEOID", "B01003_001E"] [⟨"B", [("B01003_001E", 42)]⟩] =
      (some [(⟨"A", []⟩, Option.none)], []) := by
  rfl

/-- Claim C8, amended: the merge stage checks only that both frames carry a
`GEOID` column; whenever both do, it returns the left-merged data with no
user-visible message, even when the join produces no matches — in which
case every boundary row appears with null statistic values and the
pipeline proceeds. -/
theorem process_request_merge_silent :
    ∀ (bgCols censusCols : List String) (bg : List BgRow) (census : List StatRow),
      "GEOID" ∈ bgCols → "GEOID" ∈ censusCols →
      process_request_merge bgCols bg censusCols census = (some (merge_left bg census), []) ∧
      (∀ b ∈ bg, census.filter (fun c => c.geoid == b.geoid) = [] →
        (b, (Option.none : Option (List (String × ℚ)))) ∈ merge_left bg census) := by
  intro bgCols censusCols bg census h1 h2
  constructor
  · simp only [process_request_merge, h1, h2]
    simp
  · intro b hb hfilter
    exact List.mem_flatMap.mpr ⟨b, hb, by simp [hfilter]⟩

/-- Claim C8, witness for the amended theorem: the disjoint-identifier
instance passes the column checks and is returned silently. -/
theorem process_request_merge_silent_witness :
    process_request_merge ["GEOID"] [⟨"C", []⟩] ["GEOID"] [⟨"D", [("X", 1)]⟩] =
      (some (merge_left [⟨"C", []⟩] [⟨"D", [("X", 1)]⟩]), []) :=
  (process_request_merge_silent ["GEOID"] ["GEOID"] [⟨"C", []⟩] [⟨"D", [("X", 1)]⟩]
      (List.mem_singleton.mpr rfl) (List.mem_singleton.mpr rfl)).1

/-- A found first-occurrence index is inside the list. -/
lemma firstIdx_lt_length {c : Char} :
    ∀ {s : List Char} {i : ℕ}, firstIdx c s = some i → i < s.length := by
  intro s
  induction s with
  | nil => intro i h; exact absurd h (by simp [firstIdx])
  | cons a as ih =>
    intro i h
    rw [firstIdx] at h
    by_cases hac : a = c
    · rw [if_pos hac] at h
      cases h
      simp
    · rw [if_neg hac] at h
      obtain ⟨k, hk, hki⟩ := Option.map_eq_some'.mp h
      have := ih hk
      simp only [List.length_cons]
      omega

/-- A first occurrence at index 0 pins down the head of the list. -/
lemma firstIdx_eq_zero {c : Char} {s : List Char} (h : firstIdx c s = some 0) :
    ∃ t, s = c :: t := by
  cases s with
  | nil => exact absurd h (by simp [firstIdx])
  | cons a as =>
    rw [firstIdx] at h
    by_cases hac : a = c
    · exact ⟨as, by rw [hac]⟩
    · rw [if_neg hac] at h
      obtain ⟨k, hk, hki⟩ := Option.map_eq_some'.mp h
      omega

/-- A found last-occurrence index is inside the list. -/
lemma lastIdx_lt_length {c : Char} {s : List Char} {j : ℕ}
    (h : lastIdx c s = some j) : j < s.length := by
  rw [lastIdx] at h
  obtain ⟨jr, hjr, hj⟩ := Option.map_eq_some'.mp h
  have h1 : jr < s.length := by
    have := firstIdx_lt_length hjr
    simpa using this
  omega

/-- When both braces are present and ordered, the extracted span is
exactly the window from the first opening brace to the last closing
brace inclusive. -/
lemma extract_of_indices {content : List Char} {i j : ℕ}
    (hi : firstIdx '{' content = some i) (hj : lastIdx '}' content = some j)
    (hij : i ≤ j) :
    extract_json_str content = (content.drop i).take (j + 1 - i) := by
  have hiL : i < content.length := firstIdx_lt_length hi
  have hjL : j < content.length := lastIdx_lt_length hj
  have hcSt : pyClamp (i : ℤ) content.length = i := by
    rw [pyClamp, if_neg (by omega : ¬ ((i : ℤ) < 0))]
    omega
  have hcSp : pyClamp ((j : ℤ) + 1) content.length = j + 1 := by
    rw [pyClamp, if_neg (by omega : ¬ ((j : ℤ) + 1 < 0))]
    omega
  simp only [extract_json_str, pyFind, pyRFind, hi, hj, pySlice, hcSt, hcSp]

/-- When the response contains no opening brace, the extracted span is
either empty or the single closing brace at the very end. -/
lemma extract_no_open {content : List Char} (h : firstIdx '{' content = Option.none) :
    extract_json_str content = [] ∨ extract_json_str content = ['}'] := by
  cases hlast : lastIdx '}' content with
  | none =>
    left
    have hc0 : pyClamp ((-1 : ℤ) + 1) content.length = 0 := by
      rw [(by norm_num : ((-1 : ℤ) + 1) = 0), pyClamp, if_neg (by omega)]
      omega
    simp only [extract_json_str, pyFind, pyRFind, h, hlast, pySlice, hc0,
      Nat.zero_sub, List.take_zero]
  | some j =>
    have hlast' := hlast
    rw [lastIdx] at hlast'
    obtain ⟨jr, hjr, hjeq⟩ := Option.map_eq_some'.mp hlast'
    have hjrL : jr < content.length := by
      have := firstIdx_lt_length hjr
      simpa using this
    have hn1 : 1 ≤ content.length := by omega
    have hcm : pyClamp (-1) content.length = content.length - 1 := by
      rw [pyClamp, if_pos (by omega)]
      omega
    by_cases hend : j + 1 < content.length
    · left
      have hcp : pyClamp ((j : ℤ) + 1) content.length = j + 1 := by
        rw [pyClamp, if_neg (by omega)]
        omega
      have hz : j + 1 - (content.length - 1) = 0 := by omega
      simp only [extract_json_str, pyFind, pyRFind, h, hlast, pySlice, hcm, hcp, hz,
        List.take_zero]
    · right
      have hjn : j = content.length - 1 := by omega
      have hjr0 : jr = 0 := by omega
      subst hjr0
      obtain ⟨t, ht⟩ := firstIdx_eq_zero hjr
      have hct : content = t.reverse ++ ['}'] := by
        have := congrArg List.reverse ht
        simpa using this
      have hlen : t.reverse.length = content.length - 1 := by
        conv_rhs => rw [hct]
        simp
      have hcp : pyClamp ((j : ℤ) + 1) content.length = content.length := by
        rw [pyClamp, if_neg (by omega)]
        omega
      have hone : content.length - (content.length - 1) = 1 := by omega
      simp only [extract_json_str, pyFind, pyRFind, h, hlast, pySlice, hcm, hcp, hone]
      rw [show content.length - 1 = t.reverse.length from by omega]
      conv_lhs => rw [hct]
      rw [List.drop_left]
      rfl

/-- Claim C4: the interpreter parses exactly the substring from the first
opening brace to the last closing brace — (1) when both exist in order the
extracted span is that substring; (2) what is handed to `json.loads` is
always `extract_json_str content`, and a successful parse of it is
returned; (3) whenever the parse fails the function returns, without
raising, the failure result carrying the raw response text unchanged; and
(4) when no opening brace exists at all, the span is `""` or `"}"`, which
`json.loads` rejects, so the failure result with the raw text is returned. -/
theorem comprehensive_agent_parse_correct :
    (∀ (content : List Char) (i j : ℕ),
      firstIdx '{' content = some i → lastIdx '}' content = some j → i ≤ j →
      extract_json_str content = (content.drop i).take (j + 1 - i)) ∧
    (∀ (loads : List Char → Option PyVal) (content : List Char) (v : PyVal),
      loads (extract_json_str content) = some v →
      comprehensive_agent_parse loads content = .ok v) ∧
    (∀ (loads : List Char → Option PyVal) (content : List Char),
      loads (extract_json_str content) = Option.none →
      comprehensive_agent_parse loads content = .failed content) ∧
    (∀ (loads : List Char → Option PyVal) (content : List Char),
      loads [] = Option.none → loads ['}'] = Option.none →
      firstIdx '{' content = Option.none →
      comprehensive_agent_parse loads content = .failed content) := by
  refine ⟨fun content i j hi hj hij => extract_of_indices hi hj hij,
    fun loads content v h => by rw [comprehensive_agent_parse, h],
    fun loads content h => by rw [comprehensive_agent_parse, h], ?_⟩
  intro loads content h0 h1 hno
  rw [comprehensive_agent_parse]
  rcases extract_no_open hno with h | h <;> rw [h]
  · rw [h0]
  · rw [h1]

/-- Claim C4, witness: a response with no brace at all makes the parse
fail and the failure result carries the raw text. -/
theorem comprehensive_agent_parse_correct_witness :
    comprehensive_agent_parse (fun _ => Option.none) "no json here".toList =
      .failed "no json here".toList :=
  comprehensive_agent_parse_correct.2.2.1 (fun _ => Option.none) "no json here".toList rfl

end ExtractCensus
